import Mathlib

/-!
Shallow embedding of the authentication subsystem of `moodify`
(`internal/auth/auth.go`): token persistence, the login callback handler,
the post-race finish of `Login`, `GetAuthenticatedClient`, `refreshToken`,
`QuickCheck`, and the bind addresses of the callback server and the port
probe.

Modelling conventions:
* `time.Time` instants are integers (seconds); `t.Before(u)` is `t < u`,
  `t.After(u)` is `u < t`, `now.Add(d)` is `now + d` with durations in
  seconds.
* The filesystem visible to this code is the configuration directory and
  the token file; the token file's JSON bytes are abstracted as the parsed
  `TokenStore` record (Go's `json.Marshal`/`json.Unmarshal` of this fixed
  four-field struct is lossless), stored together with the file mode.
* Network calls (the token endpoint) are modelled by passing the endpoint's
  observable outcome as an argument: `Except Unit TokenResponse` collapses
  transport failure, non-200 status and JSON decode failure into the error
  case, exactly the three early returns of the Go functions.
* Side-effect counters (`refreshCalls`, `exchangeCalls`) record how many
  times a token-endpoint call was issued, so "no exchange happens" is a
  statement about the model, not about its absence from the text.
-/

namespace Moodify

/-- `TokenStore` of auth.go: the persisted JSON record. -/
structure TokenStore where
  access_token : String
  refresh_token : String
  token_type : String
  expiry : Int
  deriving DecidableEq, Repr

/-- `oauth2.Token` as used by auth.go: the in-memory token. -/
structure OAuthToken where
  accessToken : String
  refreshToken : String
  tokenType : String
  expiry : Int
  deriving DecidableEq, Repr

/-- The filesystem state this subsystem can observe and mutate:
whether `~/.config/moodify` exists, and the token file's content and
mode (`none` = no file). -/
structure FS where
  configDirExists : Bool
  tokenFile : Option (TokenStore × Nat)
  deriving DecidableEq, Repr

/-- World state threaded through the operations: the filesystem plus
counters of token-endpoint calls issued so far. -/
structure Eff where
  fs : FS
  refreshCalls : Nat
  exchangeCalls : Nat
  deriving DecidableEq, Repr

/-- `getTokenPath`: ensures the config directory exists
(`os.MkdirAll(configDir, 0755)`) and returns the token path. The path
itself is a fixed constant, so only the directory side effect is kept. -/
def getTokenPath (e : Eff) : Eff :=
  { e with fs := { e.fs with configDirExists := true } }

/-- Field copy done by `saveToken` from `oauth2.Token` into `TokenStore`. -/
def toTokenStore (t : OAuthToken) : TokenStore :=
  { access_token := t.accessToken
    refresh_token := t.refreshToken
    token_type := t.tokenType
    expiry := t.expiry }

/-- Field copy done by `loadToken` from `TokenStore` into `oauth2.Token`. -/
def ofTokenStore (s : TokenStore) : OAuthToken :=
  { accessToken := s.access_token
    refreshToken := s.refresh_token
    tokenType := s.token_type
    expiry := s.expiry }

/-- `saveToken`: resolve the path (creating the config directory), marshal
the record and write it with mode `0600`. `writeOk = false` models
`os.WriteFile` failing, in which case the file is not replaced. -/
def saveToken (e : Eff) (writeOk : Bool) (t : OAuthToken) :
    Eff × Except Unit Unit :=
  let e1 := getTokenPath e
  if writeOk then
    ({ e1 with fs := { e1.fs with tokenFile := some (toTokenStore t, 0o600) } },
     Except.ok ())
  else
    (e1, Except.error ())

/-- `loadToken`: resolve the path (creating the config directory), read and
unmarshal the file; a missing file is the "no token found" error. -/
def loadToken (e : Eff) : Eff × Except Unit OAuthToken :=
  let e1 := getTokenPath e
  match e1.fs.tokenFile with
  | none => (e1, Except.error ())
  | some (s, _) => (e1, Except.ok (ofTokenStore s))

/-- `QuickCheck`: load the token; false on any load error, otherwise
`token.Expiry.After(time.Now().Add(1 * time.Minute))`. -/
def QuickCheck (e : Eff) (now : Int) : Eff × Bool :=
  match loadToken e with
  | (e1, Except.error _) => (e1, false)
  | (e1, Except.ok t) => (e1, decide (now + 60 < t.expiry))

/-- Shape of the token endpoint's JSON response body, as decoded by
`exchangeCodeForToken` and `refreshToken`. -/
structure TokenResponse where
  access_token : String
  token_type : String
  refresh_token : String
  expires_in : Int
  deriving DecidableEq, Repr

/-- `refreshToken` (pure part): given the endpoint outcome, build the new
token; an omitted (`""`) refresh token in the response is replaced by the
one passed in; expiry is `now + expires_in` seconds. -/
def refreshTokenFn (now : Int) (refreshTok : String)
    (resp : Except Unit TokenResponse) : Except Unit OAuthToken :=
  match resp with
  | Except.error _ => Except.error ()
  | Except.ok r =>
    let rt := if r.refresh_token = "" then refreshTok else r.refresh_token
    Except.ok
      { accessToken := r.access_token
        refreshToken := rt
        tokenType := r.token_type
        expiry := now + r.expires_in }

/-- `refreshToken` as an effectful operation: one POST to the token
endpoint (counted), then the pure response handling. -/
def refreshTokenOp (e : Eff) (now : Int) (refreshTok : String)
    (resp : Except Unit TokenResponse) : Eff × Except Unit OAuthToken :=
  ({ e with refreshCalls := e.refreshCalls + 1 },
   refreshTokenFn now refreshTok resp)

/-- `GetAuthenticatedClient`: load the token; if
`token.Expiry.Before(time.Now().Add(5 * time.Minute))` refresh it, save the
refreshed token (a save failure is only logged), and return a client bound
to the resulting token. The returned token is the one the client is bound
to. -/
def GetAuthenticatedClient (e : Eff) (now : Int)
    (resp : Except Unit TokenResponse) (writeOk : Bool) :
    Eff × Except Unit OAuthToken :=
  match loadToken e with
  | (e1, Except.error _) => (e1, Except.error ())
  | (e1, Except.ok token) =>
    if token.expiry < now + 300 then
      match refreshTokenOp e1 now token.refreshToken resp with
      | (e2, Except.error _) => (e2, Except.error ())
      | (e2, Except.ok refreshed) =>
        let save := saveToken e2 writeOk refreshed
        (save.1, Except.ok refreshed)
    else (e1, Except.ok token)

/-- A callback request as the handler observes it: `r.FormValue` of the
four query parameters, with `""` for an absent parameter (Go's
`FormValue` returns the empty string when the key is missing). -/
structure Request where
  state : String
  error : String
  error_description : String
  code : String
  deriving DecidableEq, Repr

/-- A value sent on the single-slot channels: `tokenChan <- token` or
`errChan <- fmt.Errorf(msg)`. -/
inductive ChanMsg where
  | token (t : OAuthToken)
  | err (msg : String)
  deriving DecidableEq, Repr

/-- What one run of the `/callback` handler does: the HTTP status written,
the channel send it performs (the handler always sends exactly one
message before returning), and whether it called `exchangeCodeForToken`
(one POST to the token endpoint). -/
structure HandlerResult where
  status : Nat
  sent : ChanMsg
  exchangeCalled : Bool
  deriving DecidableEq, Repr

/-- The `/callback` handler body registered in `Login`, for the attempt's
generated `state`. `exchangeResp` is the observable outcome of
`exchangeCodeForToken` (transport failure, non-200 and decode failure
collapsed into the error case), used only if the handler reaches the
exchange step. -/
def callbackHandler (attemptState : String)
    (exchangeResp : Except Unit OAuthToken) (r : Request) : HandlerResult :=
  if r.state ≠ attemptState then
    { status := 400, sent := ChanMsg.err "invalid state parameter",
      exchangeCalled := false }
  else if r.error ≠ "" then
    { status := 400,
      sent := ChanMsg.err ("authorization error: " ++ r.error ++ " - "
        ++ r.error_description),
      exchangeCalled := false }
  else if r.code = "" then
    { status := 400, sent := ChanMsg.err "no authorization code received",
      exchangeCalled := false }
  else
    match exchangeResp with
    | Except.error _ =>
      { status := 500, sent := ChanMsg.err "failed to exchange code for token",
        exchangeCalled := true }
    | Except.ok t =>
      { status := 200, sent := ChanMsg.token t, exchangeCalled := true }

/-- The handler as it processes a sequence of callback requests during one
login attempt. The Go handler closes over no mutable per-attempt guard
state (the channels are its only interaction with the attempt), so every
request is processed by the same function. -/
def handleRequests (attemptState : String)
    (exchangeResp : Except Unit OAuthToken) (rs : List Request) :
    List HandlerResult :=
  rs.map (callbackHandler attemptState exchangeResp)

/-- The three events raced by `Login`'s final `select`: a token arriving on
`tokenChan`, an error arriving on `errChan`, and `ctx.Done()`. -/
inductive RaceOutcome where
  | gotToken (t : OAuthToken)
  | gotErr (msg : String)
  | ctxDone
  deriving DecidableEq, Repr

instance {ε α : Type} [DecidableEq ε] [DecidableEq α] :
    DecidableEq (Except ε α)
  | Except.error x, Except.error y => decidable_of_iff (x = y) (by simp)
  | Except.error _, Except.ok _ => isFalse (by simp)
  | Except.ok _, Except.error _ => isFalse (by simp)
  | Except.ok x, Except.ok y => decidable_of_iff (x = y) (by simp)

/-- What `Login` does after the select: whether `server.Shutdown` was
invoked, the resulting world state, and `Login`'s return value. -/
structure LoginEnd where
  shutdown : Bool
  eff : Eff
  result : Except String Unit
  deriving DecidableEq, Repr

/-- The final `select` of `Login`: every branch shuts the server down; only
the token branch saves the token (a save failure fails `Login`); the
`ctx.Done()` branch returns the "authentication cancelled" error without
touching the token file. -/
def loginFinish (e : Eff) (writeOk : Bool) (o : RaceOutcome) : LoginEnd :=
  match o with
  | RaceOutcome.gotToken t =>
    match saveToken e writeOk t with
    | (e1, Except.ok _) => { shutdown := true, eff := e1, result := Except.ok () }
    | (e1, Except.error _) =>
      { shutdown := true, eff := e1, result := Except.error "failed to save token" }
  | RaceOutcome.gotErr msg =>
    { shutdown := true, eff := e, result := Except.error msg }
  | RaceOutcome.ctxDone =>
    { shutdown := true, eff := e, result := Except.error "authentication cancelled" }

/-- The listen address of the callback server in `Login`:
`Addr: ":" + config.Port`. -/
def serverAddr (port : String) : String := ":" ++ port

/-- The address passed to `net.Listen("tcp", ...)` by `isPortAvailable`. -/
def probeListenAddr (port : String) : String := ":" ++ port

/-- Host part of a `host:port` listen address: the characters before the
first colon. Go's `net.Listen` treats an empty host as the wildcard
address (all interfaces). -/
def bindHost (addr : String) : String :=
  String.mk (addr.data.takeWhile (fun c => c ≠ ':'))

/-- Whether a host names only the loopback interface. -/
def isLoopbackHost (h : String) : Bool :=
  h == "127.0.0.1" || h == "localhost" || h == "::1"

/-- C1: a callback request whose `state` differs from the attempt's
generated state is answered 400, signals the CSRF-mismatch failure on the
error channel, and triggers no token-exchange call. -/
theorem callback_state_mismatch_rejected (s : String)
    (ex : Except Unit OAuthToken) (r : Request) (h : r.state ≠ s) :
    callbackHandler s ex r =
      { status := 400, sent := ChanMsg.err "invalid state parameter",
        exchangeCalled := false } := by
  simp [callbackHandler, h]

theorem callback_state_mismatch_rejected_witness :
    ("evil" : String) ≠ "good" ∧
      callbackHandler "good" (Except.error ()) ⟨"evil", "", "", "c"⟩ =
        { status := 400, sent := ChanMsg.err "invalid state parameter",
          exchangeCalled := false } :=
  ⟨by decide, callback_state_mismatch_rejected "good" (Except.error ())
    ⟨"evil", "", "", "c"⟩ (by decide)⟩

/-- C2: evaluation of the handler at the failing input. The handler keeps
no per-attempt guard state, so a second valid callback request during the
same attempt is processed in full: it triggers a second token-exchange
call and a second channel send, instead of being ignored. -/
theorem second_callback_reexchanges :
    handleRequests "s1" (Except.ok ⟨"at", "rt", "Bearer", 1000⟩)
        [⟨"s1", "", "", "c1"⟩, ⟨"s1", "", "", "c1"⟩] =
      [{ status := 200, sent := ChanMsg.token ⟨"at", "rt", "Bearer", 1000⟩,
         exchangeCalled := true },
       { status := 200, sent := ChanMsg.token ⟨"at", "rt", "Bearer", 1000⟩,
         exchangeCalled := true }] := by
  decide

/-- C3: `GetAuthenticatedClient` issues a refresh call if and only if the
loaded token's expiry is before now + 5 minutes; and when the refresh
succeeds but persisting the refreshed record fails, the caller still
receives the refreshed in-memory token. -/
theorem ensure_refresh_window_and_nonfatal_save
    (e : Eff) (now : Int) (resp : Except Unit TokenResponse) (writeOk : Bool)
    (st : TokenStore) (m : Nat) (h : e.fs.tokenFile = some (st, m)) :
    ((GetAuthenticatedClient e now resp writeOk).1.refreshCalls
        = e.refreshCalls + 1 ↔ st.expiry < now + 300) ∧
    ((GetAuthenticatedClient e now resp writeOk).1.refreshCalls
        = e.refreshCalls ↔ ¬ st.expiry < now + 300) ∧
    (∀ r : TokenResponse, st.expiry < now + 300 →
      (GetAuthenticatedClient e now (Except.ok r) false).2 =
        Except.ok
          { accessToken := r.access_token
            refreshToken :=
              if r.refresh_token = "" then st.refresh_token
              else r.refresh_token
            tokenType := r.token_type
            expiry := now + r.expires_in } ∧
      (GetAuthenticatedClient e now (Except.ok r) false).1.fs.tokenFile
        = e.fs.tokenFile) := by
  have hcalls : (GetAuthenticatedClient e now resp writeOk).1.refreshCalls =
      if st.expiry < now + 300 then e.refreshCalls + 1 else e.refreshCalls := by
    by_cases hc : st.expiry < now + 300
    · cases resp with
      | error u =>
        simp [GetAuthenticatedClient, loadToken, getTokenPath, h,
          ofTokenStore, refreshTokenOp, refreshTokenFn, hc]
      | ok r =>
        cases writeOk <;>
          simp [GetAuthenticatedClient, loadToken, getTokenPath, h,
            ofTokenStore, refreshTokenOp, refreshTokenFn, saveToken, hc]
    · simp [GetAuthenticatedClient, loadToken, getTokenPath, h,
        ofTokenStore, hc]
  refine ⟨?_, ?_, ?_⟩
  · rw [hcalls]
    by_cases hc : st.expiry < now + 300 <;> simp [hc]
  · rw [hcalls]
    by_cases hc : st.expiry < now + 300 <;> simp [hc]
  · intro r hc
    simp [GetAuthenticatedClient, loadToken, getTokenPath, h, ofTokenStore,
      refreshTokenOp, refreshTokenFn, saveToken, hc]

theorem ensure_refresh_window_and_nonfatal_save_witness :
    (GetAuthenticatedClient ⟨⟨true, some (⟨"a", "r", "b", 240⟩, 384)⟩, 0, 0⟩
        0 (Except.ok ⟨"a2", "b", "r2", 3600⟩) false).1.refreshCalls = 0 + 1 := by
  have h := ensure_refresh_window_and_nonfatal_save
    ⟨⟨true, some (⟨"a", "r", "b", 240⟩, 384)⟩, 0, 0⟩ 0
    (Except.ok ⟨"a2", "b", "r2", 3600⟩) false ⟨"a", "r", "b", 240⟩ 384 rfl
  exact h.1.mpr (by decide)

/-- C4: when the refresh call fails, `GetAuthenticatedClient` returns the
error and the token file on disk is untouched. -/
theorem refresh_failure_leaves_file (e : Eff) (now : Int) (writeOk : Bool)
    (st : TokenStore) (m : Nat) (h : e.fs.tokenFile = some (st, m))
    (hexp : st.expiry < now + 300) :
    (GetAuthenticatedClient e now (Except.error ()) writeOk).2
      = Except.error () ∧
    (GetAuthenticatedClient e now (Except.error ()) writeOk).1.fs.tokenFile
      = e.fs.tokenFile := by
  simp [GetAuthenticatedClient, loadToken, getTokenPath, h, ofTokenStore,
    refreshTokenOp, refreshTokenFn, hexp]

theorem refresh_failure_leaves_file_witness :
    (GetAuthenticatedClient ⟨⟨true, some (⟨"a", "r", "b", 240⟩, 384)⟩, 0, 0⟩
        0 (Except.error ()) true).2 = Except.error () :=
  (refresh_failure_leaves_file
    ⟨⟨true, some (⟨"a", "r", "b", 240⟩, 384)⟩, 0, 0⟩ 0 true
    ⟨"a", "r", "b", 240⟩ 384 rfl (by decide)).1

/-- C5: in all three race outcomes `Login` shuts down the server, and on
context cancellation it returns the cancellation error with the world
(in particular the token file) unchanged. -/
theorem login_shutdown_all_outcomes_and_cancel (e : Eff) (writeOk : Bool)
    (t : OAuthToken) (msg : String) :
    (loginFinish e writeOk RaceOutcome.ctxDone).shutdown = true ∧
    (loginFinish e writeOk RaceOutcome.ctxDone).eff = e ∧
    (loginFinish e writeOk RaceOutcome.ctxDone).result
      = Except.error "authentication cancelled" ∧
    (loginFinish e writeOk (RaceOutcome.gotToken t)).shutdown = true ∧
    (loginFinish e writeOk (RaceOutcome.gotErr msg)).shutdown = true := by
  cases writeOk <;> simp [loginFinish, saveToken, getTokenPath]

/-- C6: saving a token and loading it back returns a token equal in all
four fields, and the written file has mode 0600. -/
theorem save_load_roundtrip (e : Eff) (t : OAuthToken) :
    (loadToken (saveToken e true t).1).2 = Except.ok t ∧
    (saveToken e true t).1.fs.tokenFile = some (toTokenStore t, 0o600) := by
  cases t
  simp [loadToken, saveToken, getTokenPath, toTokenStore, ofTokenStore]

/-- C7: `QuickCheck` is true iff a token record exists and its expiry is
more than 1 minute after now; in particular false for an expired token,
false at 30 seconds to expiry, true at 10 minutes. -/
theorem quickcheck_iff_valid_token (e : Eff) (now : Int) :
    ((QuickCheck e now).2 = true ↔
      ∃ st : TokenStore, ∃ m : Nat,
        e.fs.tokenFile = some (st, m) ∧ now + 60 < st.expiry) ∧
    (QuickCheck ⟨⟨true, some (⟨"a", "r", "b", now - 1⟩, 384)⟩, 0, 0⟩ now).2
      = false ∧
    (QuickCheck ⟨⟨true, some (⟨"a", "r", "b", now + 30⟩, 384)⟩, 0, 0⟩ now).2
      = false ∧
    (QuickCheck ⟨⟨true, some (⟨"a", "r", "b", now + 600⟩, 384)⟩, 0, 0⟩ now).2
      = true := by
  refine ⟨?_, ?_, ?_, ?_⟩
  · cases h : e.fs.tokenFile with
    | none => simp [QuickCheck, loadToken, getTokenPath, h]
    | some p =>
      obtain ⟨st, m⟩ := p
      have hq : (QuickCheck e now).2 = decide (now + 60 < st.expiry) := by
        simp [QuickCheck, loadToken, getTokenPath, ofTokenStore, h]
      rw [hq, decide_eq_true_eq]
      constructor
      · intro h1
        exact ⟨st, m, rfl, h1⟩
      · rintro ⟨st2, m2, hp, h2⟩
        injection hp with hp2
        injection hp2 with h3 h4
        rw [h3]
        exact h2
  · simp [QuickCheck, loadToken, getTokenPath, ofTokenStore]
    omega
  · simp [QuickCheck, loadToken, getTokenPath, ofTokenStore]
  · simp [QuickCheck, loadToken, getTokenPath, ofTokenStore]

/-- C8 counterexample: `QuickCheck` does mutate persistent state — when
the configuration directory is absent, loading the token path runs
`os.MkdirAll` and creates it. -/
theorem quickcheck_creates_config_dir :
    ((⟨⟨false, none⟩, 0, 0⟩ : Eff).fs.configDirExists = false) ∧
    (QuickCheck ⟨⟨false, none⟩, 0, 0⟩ 0).1.fs.configDirExists = true := by
  decide

/-- C8 amended: `QuickCheck` performs no token-endpoint call and neither
creates, modifies nor deletes the token file, but it does ensure the
configuration directory exists (creating it when missing). -/
theorem quickcheck_frame (e : Eff) (now : Int) :
    (QuickCheck e now).1.fs.tokenFile = e.fs.tokenFile ∧
    (QuickCheck e now).1.refreshCalls = e.refreshCalls ∧
    (QuickCheck e now).1.exchangeCalls = e.exchangeCalls ∧
    (QuickCheck e now).1.fs.configDirExists = true := by
  cases h : e.fs.tokenFile with
  | none => simp [QuickCheck, loadToken, getTokenPath, h]
  | some p => simp [QuickCheck, loadToken, getTokenPath, h]

/-- C9 counterexample: on the default port the callback server and the
probe listener use address ":8808", whose host part is empty — Go's
wildcard address, all interfaces — not a loopback host. -/
theorem callback_bind_not_loopback :
    serverAddr "8808" = ":8808" ∧
    probeListenAddr "8808" = ":8808" ∧
    bindHost (serverAddr "8808") = "" ∧
    isLoopbackHost (bindHost (serverAddr "8808")) = false ∧
    isLoopbackHost (bindHost (probeListenAddr "8808")) = false := by
  decide

/-- C9 amended: for every port, both listen addresses have an empty host
part, i.e. they bind the wildcard (all interfaces), never loopback only. -/
theorem bind_addrs_empty_host (port : String) :
    bindHost (serverAddr port) = "" ∧ bindHost (probeListenAddr port) = "" := by
  constructor <;>
    simp [bindHost, serverAddr, probeListenAddr, String.data_append]

/-- C10: a successful refresh whose response omits the refresh token keeps
the refresh token that was passed in. -/
theorem refresh_preserves_refresh_credential (now : Int) (rt a tt : String)
    (ei : Int) :
    refreshTokenFn now rt (Except.ok ⟨a, tt, "", ei⟩) =
      Except.ok ⟨a, rt, tt, now + ei⟩ := by
  simp [refreshTokenFn]

end Moodify
